import Mathlib

/-!
Shallow embedding of the Windows BLE plugin (`ble_service_plugin.cpp` /
`ble_service_plugin.h`, namespace `pak_connect`) and verification of the
specified properties of its command surface.

The mutable fields of the plugin object (`watcher_`, `connected_devices_`,
`notification_tokens_`, the event sinks) become an explicit `PluginState`.
Each asynchronous platform call (WinRT `co_await`) is modelled by an oracle
value describing the response of the platform, including the possibility that the
call throws; `catch (...)` blocks are reflected by the operation returning
its failure value with the state as of the throw point.  Every operation also
records the list of platform calls it actually issued.
-/

namespace BleSpec

/-! ### Association-list maps

`std::map` from the source is embedded as an association list.  `alistInsert`
models `operator[]` assignment (overwrite the key if present, append
otherwise), `alistErase` models `erase(key)` (a `std::map` holds a key at most
once, so erasing removes every occurrence of the key), `alistFind` models
`find`. -/

def alistFind {α β : Type} [DecidableEq α] (k : α) : List (α × β) → Option β
  | [] => none
  | (k', v) :: rest => if k' = k then some v else alistFind k rest

def alistInsert {α β : Type} [DecidableEq α] (k : α) (v : β) : List (α × β) → List (α × β)
  | [] => [(k, v)]
  | (k', v') :: rest => if k' = k then (k, v) :: rest else (k', v') :: alistInsert k v rest

def alistErase {α β : Type} [DecidableEq α] (k : α) : List (α × β) → List (α × β)
  | [] => []
  | (k', v') :: rest => if k' = k then alistErase k rest else (k', v') :: alistErase k rest

/-- Remove the first occurrence of an element (used for detaching one
`ValueChanged` registration identified by its token). -/
def removeFirst {α : Type} [DecidableEq α] (a : α) : List α → List α
  | [] => []
  | x :: xs => if x = a then xs else x :: removeFirst a xs

/-! ### Hex address parsing

`ConnectToDevice`, `DisconnectDevice`, `DiscoverServices`, the GATT I/O
operations and the subscription operations all parse the `deviceId` string
with `std::stringstream ss; ss << std::hex << s; ss >> device_address;`.
`operator>>` skips leading whitespace, accepts an optional sign, an optional
`0x`/`0X` prefix, then a maximal run of hex digits.  Since C++11, a failed
extraction stores `0` in the target, so a string with no leading hex numeral
yields address `0` (the failbit of the stream is never inspected by the plugin). -/

def hexVal (c : Char) : Option Nat :=
  if '0' ≤ c ∧ c ≤ '9' then some (c.toNat - '0'.toNat)
  else if 'a' ≤ c ∧ c ≤ 'f' then some (c.toNat - 'a'.toNat + 10)
  else if 'A' ≤ c ∧ c ≤ 'F' then some (c.toNat - 'A'.toNat + 10)
  else none

/-- Accumulate the maximal leading run of hex digits; `none` when no digit at
all was consumed (the extraction fails). -/
def hexDigits : List Char → Option Nat → Option Nat
  | [], acc => acc
  | c :: rest, acc =>
    match hexVal c with
    | some d => hexDigits rest (some (acc.getD 0 * 16 + d))
    | none => acc

def isWs (c : Char) : Bool :=
  c = ' ' || c = '\t' || c = '\n' || c = '\r'

def skipWs : List Char → List Char
  | [] => []
  | c :: rest => if isWs c then skipWs rest else c :: rest

def stripSign : List Char → Bool × List Char
  | '-' :: rest => (true, rest)
  | '+' :: rest => (false, rest)
  | cs => (false, cs)

def stripHexMarker : List Char → List Char
  | '0' :: 'x' :: rest => rest
  | '0' :: 'X' :: rest => rest
  | cs => cs

/-- The digit scan performed by the hex extraction on a `deviceId` string. -/
def hexScan (s : String) : Bool × Option Nat :=
  let (neg, cs) := stripSign (skipWs s.data)
  (neg, hexDigits (stripHexMarker cs) none)

/-- `uint64_t device_address` after `ss >> device_address`: the parsed value
reduced modulo 2^64 (negated for a minus sign, as `std::num_get` does for
unsigned targets), and `0` when the extraction fails. -/
def parseHexAddr (s : String) : Nat :=
  match hexScan s with
  | (_, none) => 0
  | (neg, some v) =>
    if neg then (2 ^ 64 - v % 2 ^ 64) % 2 ^ 64 else v % 2 ^ 64

/-- The extraction consumed no hex digit: the `deviceId` string is not a valid
hexadecimal numeral. -/
def hexParseFails (s : String) : Bool :=
  (hexScan s).2.isNone

/-! ### Data model

The mutable fields of the plugin (header lines 33–50) become `PluginState`; the
WinRT handles and responses become small inductive types. -/

/-- An opaque `BluetoothLEDevice` connection handle returned by the platform. -/
structure Device where
  id : Nat
deriving DecidableEq, Repr

/-- Platform calls an operation can issue (each `co_await` site / callback
(de)registration in the source). -/
inductive PCall where
  | fromBluetoothAddress (addr : Nat)
  | getGattServices
  | getCharacteristics (serviceUuid : String)
  | getGattServicesForUuid (uuid : String)
  | getCharacteristicsForUuid (uuid : String)
  | writeValue (bytes : List Nat) (withResponse : Bool)
  | readValue
  | writeCccd (enable : Bool)
  | valueChangedAttach
  | valueChangedDetach (token : Nat)
deriving DecidableEq, Repr

/-- Events the plugin pushes to the host: `onScanStateChanged` invocations on
the method channel and connection-state maps pushed to the connection sink. -/
inductive Event where
  | scanStateChanged (isScanning : Bool)
  | connectionState (deviceId : String) (state : String) (isConnected : Bool)
deriving DecidableEq, Repr

/-- The mutable state of the plugin object: `attachedCallbacks` records the live
platform `ValueChanged` registrations as (key, token) pairs — the handlers the
source attaches at line 824 and detaches at line 905 — while
`notificationTokens` is the `notification_tokens_` map itself.  `nextToken`
supplies fresh `winrt::event_token` values. -/
structure PluginState where
  watcherExists : Bool := false
  watcherStarted : Bool := false
  connectedDevices : List (Nat × Device) := []
  notificationTokens : List (String × Nat) := []
  attachedCallbacks : List (String × Nat) := []
  nextToken : Nat := 0
  connectionSinkAttached : Bool := false
deriving DecidableEq, Repr

/-- `BluetoothLEDevice::FromBluetoothAddressAsync` outcome. -/
inductive DeviceResp where
  | dev (d : Device)
  | null
  | threw
deriving DecidableEq, Repr

/-- Characteristic metadata the plugin inspects (`Uuid`,
`CharacteristicProperties` tested against Read/Write/Notify). -/
structure GattChar where
  uuid : String
  canRead : Bool
  canWrite : Bool
  canNotify : Bool
deriving DecidableEq, Repr

/-- `GetGattServicesForUuidAsync` outcome: the plugin only looks at
`Status()` and `Services().Size()` before taking `GetAt(0)`. -/
inductive SvcFetch where
  | threw
  | result (success : Bool) (size : Nat)
deriving DecidableEq, Repr

/-- `GetCharacteristicsForUuidAsync` outcome: `Status()` and the (possibly
empty) characteristic list, of which the plugin takes `GetAt(0)`. -/
inductive CharFetch where
  | threw
  | result (success : Bool) (chars : List GattChar)
deriving DecidableEq, Repr

/-- Outcome of a configuration/value write (`WriteValueAsync`,
`WriteClientCharacteristicConfigurationDescriptorAsync`). -/
inductive WriteResp where
  | threw
  | status (success : Bool)
deriving DecidableEq, Repr

/-- `ReadValueAsync` outcome: `Status()` plus the bytes of the buffer. -/
inductive ReadResp where
  | threw
  | result (success : Bool) (value : List Nat)
deriving DecidableEq, Repr

/-- Per-service `GetCharacteristicsAsync` outcome inside `DiscoverServices`. -/
inductive CharsOutcome where
  | threw
  | result (success : Bool) (chars : List GattChar)
deriving DecidableEq, Repr

/-- One service as enumerated by `GetGattServicesAsync`, together with the
outcome of its own characteristic enumeration. -/
structure SvcEnum where
  uuid : String
  chars : CharsOutcome
deriving DecidableEq, Repr

/-- `GetGattServicesAsync` outcome for `DiscoverServices`. -/
inductive DiscoverResp where
  | threw
  | result (success : Bool) (services : List SvcEnum)
deriving DecidableEq, Repr

/-- Responses of the platform stack to the calls one command may issue. -/
structure PlatformOracle where
  fromBluetoothAddress : DeviceResp := .threw
  discoverResp : DiscoverResp := .threw
  svcFetch : SvcFetch := .threw
  charFetch : CharFetch := .threw
  writeResp : WriteResp := .threw
  readResp : ReadResp := .threw
  cccdWrite : WriteResp := .threw
  adapterPoweredOn : Option Bool := none
  initOk : Bool := true
deriving DecidableEq, Repr

/-- Arguments map of a method call, projected to the keys the plugin reads
(each field is `none` when `args.find(...) == args.end()`). -/
structure ArgsMap where
  deviceId : Option String := none
  serviceUuid : Option String := none
  characteristicUuid : Option String := none
  data : Option (List Nat) := none
  withResponse : Option Bool := none
  timeoutMs : Option Int := none
  notificationChannel : Option String := none
deriving DecidableEq, Repr

/-- Result of one operation: the value returned to the `Completed` handler,
the plugin state afterwards, the events pushed, and the platform calls made. -/
structure OpOut (α : Type) where
  result : α
  state : PluginState
  events : List Event
  calls : List PCall
deriving DecidableEq, Repr

/-! ### Operations (cpp lines 297–913)

Each `IAsyncOperation` body is a pure function of the arguments, the current
state and the platform oracle.  The surrounding `try { ... } catch (...)`
appears as the `threw` branches returning the failure value with whatever
state/calls had accumulated by the throw point. -/

/-- `InitializeBluetooth` (lines 298–357): constructs a fresh watcher and
registers its handlers; on a platform throw the watcher field keeps its old
value and the operation returns `false`. -/
def initBluetooth (st : PluginState) (o : PlatformOracle) : OpOut Bool :=
  if o.initOk then
    ⟨true, { st with watcherExists := true, watcherStarted := false }, [], []⟩
  else
    ⟨false, st, [], []⟩

/-- `IsBluetoothAvailable` (lines 360–372): `none` models both a null adapter
and a thrown exception, each of which yields `false`. -/
def isBluetoothAvailable (st : PluginState) (o : PlatformOracle) : OpOut Bool :=
  ⟨o.adapterPoweredOn.getD false, st, [], []⟩

/-- `StartScan` (lines 375–408).  The timeout parameter is read (defaulting
to 10000) but the block guarded by `timeout_ms > 0` at lines 398–402 is
empty — the comment in the source says the stop timer is not implemented — so
the parsed timeout has no effect on state, result or events.  A started
watcher is stopped first; `watcher_.Start()` then transitions to scanning and
`onScanStateChanged {isScanning: true}` is invoked on the method channel.
When no watcher exists the `Start()` call on the null handle faults and the
operation yields `false` with the state unchanged. -/
def startScan (args : ArgsMap) (st : PluginState) : OpOut Bool :=
  if st.watcherExists then
    let _timeout_ms : Int := args.timeoutMs.getD 10000
    ⟨true, { st with watcherStarted := true }, [Event.scanStateChanged true], []⟩
  else
    ⟨false, st, [], []⟩

/-- `StopScan` (lines 411–426): stops the watcher and emits
`onScanStateChanged {isScanning: false}` only when a started watcher exists;
otherwise succeeds without any effect. -/
def stopScan (st : PluginState) : OpOut Bool :=
  if st.watcherExists && st.watcherStarted then
    ⟨true, { st with watcherStarted := false }, [Event.scanStateChanged false], []⟩
  else
    ⟨true, st, [], []⟩

/-- `ConnectToDevice` (lines 429–468). -/
def connectToDevice (args : ArgsMap) (st : PluginState) (o : PlatformOracle) :
    OpOut Bool :=
  match args.deviceId with
  | none => ⟨false, st, [], []⟩
  | some didStr =>
    let addr := parseHexAddr didStr
    match o.fromBluetoothAddress with
    | .threw => ⟨false, st, [], [.fromBluetoothAddress addr]⟩
    | .null => ⟨false, st, [], [.fromBluetoothAddress addr]⟩
    | .dev d =>
      ⟨true,
       { st with connectedDevices := alistInsert addr d st.connectedDevices },
       if st.connectionSinkAttached then
         [Event.connectionState didStr "connected" true]
       else [],
       [.fromBluetoothAddress addr]⟩

/-- `DisconnectDevice` (lines 471–504): erases the registry entry
unconditionally, emits the disconnected event when a sink is attached, and
returns `true`; `notification_tokens_` is not touched. -/
def disconnectDevice (args : ArgsMap) (st : PluginState) : OpOut Bool :=
  match args.deviceId with
  | none => ⟨false, st, [], []⟩
  | some didStr =>
    let addr := parseHexAddr didStr
    ⟨true,
     { st with connectedDevices := alistErase addr st.connectedDevices },
     if st.connectionSinkAttached then
       [Event.connectionState didStr "disconnected" false]
     else [],
     []⟩

/-- One characteristic map `{uuid, properties}` as built at lines 551–569. -/
structure CharEntry where
  uuid : String
  properties : List String
deriving DecidableEq, Repr

/-- One service map `{uuid, characteristics}` as built at lines 543–575. -/
structure ServiceEntry where
  uuid : String
  characteristics : List CharEntry
deriving DecidableEq, Repr

def charEntry (c : GattChar) : CharEntry :=
  ⟨c.uuid,
   (if c.canRead then ["read"] else []) ++
   (if c.canWrite then ["write"] else []) ++
   (if c.canNotify then ["notify"] else [])⟩

/-- The service loop of `DiscoverServices` (lines 542–576): per service, a
characteristic enumeration that throws aborts the whole command (`none`); a
non-success status leaves the characteristic list of that service empty but keeps
the service and continues with its siblings. -/
def discoverLoop : List SvcEnum → Option (List ServiceEntry) × List PCall
  | [] => (some [], [])
  | s :: rest =>
    match s.chars with
    | .threw => (none, [.getCharacteristics s.uuid])
    | .result ok cs =>
      ((discoverLoop rest).1.map (fun entries =>
        ⟨s.uuid, if ok then cs.map charEntry else []⟩ :: entries),
       .getCharacteristics s.uuid :: (discoverLoop rest).2)

/-- `DiscoverServices` (lines 507–582): failures at any stage return the
(empty) `EncodableList`. -/
def discoverServices (args : ArgsMap) (st : PluginState) (o : PlatformOracle) :
    OpOut (List ServiceEntry) :=
  match args.deviceId with
  | none => ⟨[], st, [], []⟩
  | some didStr =>
    let addr := parseHexAddr didStr
    match alistFind addr st.connectedDevices with
    | none => ⟨[], st, [], []⟩
    | some _ =>
      match o.discoverResp with
      | .threw => ⟨[], st, [], [.getGattServices]⟩
      | .result success svcs =>
        if success then
          match discoverLoop svcs with
          | (none, calls) => ⟨[], st, [], .getGattServices :: calls⟩
          | (some entries, calls) => ⟨entries, st, [], .getGattServices :: calls⟩
        else
          ⟨[], st, [], [.getGattServices]⟩

/-- `WriteCharacteristic` (lines 585–663).  `withResponse` defaults to
with-response semantics when the key is absent (lines 649–655). -/
def writeCharacteristic (args : ArgsMap) (st : PluginState) (o : PlatformOracle) :
    OpOut Bool :=
  match args.deviceId, args.serviceUuid, args.characteristicUuid, args.data with
  | some didStr, some svcUuid, some chrUuid, some bytes =>
    let addr := parseHexAddr didStr
    match alistFind addr st.connectedDevices with
    | none => ⟨false, st, [], []⟩
    | some _ =>
      match o.svcFetch with
      | .threw => ⟨false, st, [], [.getGattServicesForUuid svcUuid]⟩
      | .result ok size =>
        if !ok || size = 0 then
          ⟨false, st, [], [.getGattServicesForUuid svcUuid]⟩
        else
          match o.charFetch with
          | .threw =>
            ⟨false, st, [],
             [.getGattServicesForUuid svcUuid, .getCharacteristicsForUuid chrUuid]⟩
          | .result ok2 chars =>
            if !ok2 || chars.isEmpty then
              ⟨false, st, [],
               [.getGattServicesForUuid svcUuid, .getCharacteristicsForUuid chrUuid]⟩
            else
              let withResp := args.withResponse.getD true
              match o.writeResp with
              | .threw =>
                ⟨false, st, [],
                 [.getGattServicesForUuid svcUuid, .getCharacteristicsForUuid chrUuid,
                  .writeValue bytes withResp]⟩
              | .status s =>
                ⟨s, st, [],
                 [.getGattServicesForUuid svcUuid, .getCharacteristicsForUuid chrUuid,
                  .writeValue bytes withResp]⟩
  | _, _, _, _ => ⟨false, st, [], []⟩

/-- `ReadCharacteristic` (lines 666–731): `none` is the default-constructed
`EncodableValue()` (null) returned on every failure path; `some bs` is the
byte vector of a successful read, which may legitimately be empty. -/
def readCharacteristic (args : ArgsMap) (st : PluginState) (o : PlatformOracle) :
    OpOut (Option (List Nat)) :=
  match args.deviceId, args.serviceUuid, args.characteristicUuid with
  | some didStr, some svcUuid, some chrUuid =>
    let addr := parseHexAddr didStr
    match alistFind addr st.connectedDevices with
    | none => ⟨none, st, [], []⟩
    | some _ =>
      match o.svcFetch with
      | .threw => ⟨none, st, [], [.getGattServicesForUuid svcUuid]⟩
      | .result ok size =>
        if !ok || size = 0 then
          ⟨none, st, [], [.getGattServicesForUuid svcUuid]⟩
        else
          match o.charFetch with
          | .threw =>
            ⟨none, st, [],
             [.getGattServicesForUuid svcUuid, .getCharacteristicsForUuid chrUuid]⟩
          | .result ok2 chars =>
            if !ok2 || chars.isEmpty then
              ⟨none, st, [],
               [.getGattServicesForUuid svcUuid, .getCharacteristicsForUuid chrUuid]⟩
            else
              match o.readResp with
              | .threw =>
                ⟨none, st, [],
                 [.getGattServicesForUuid svcUuid, .getCharacteristicsForUuid chrUuid,
                  .readValue]⟩
              | .result rok v =>
                ⟨if rok then some v else none, st, [],
                 [.getGattServicesForUuid svcUuid, .getCharacteristicsForUuid chrUuid,
                  .readValue]⟩
  | _, _, _ => ⟨none, st, [], []⟩

/-- The `notification_tokens_` key built at lines 839 and 903. -/
def subKey (did svc chr : String) : String :=
  did ++ "_" ++ svc ++ "_" ++ chr

/-- `SubscribeToCharacteristic` (lines 734–846).  After a successful CCCD
write a `ValueChanged` handler is attached (line 824) and its token stored
with `notification_tokens_[key] = token` (line 840) — a plain overwrite: any
token previously stored under the same key is dropped from the map without
its handler being detached. -/
def subscribeToCharacteristic (args : ArgsMap) (st : PluginState)
    (o : PlatformOracle) : OpOut Bool :=
  match args.deviceId, args.serviceUuid, args.characteristicUuid,
        args.notificationChannel with
  | some didStr, some svcUuid, some chrUuid, some _chan =>
    let addr := parseHexAddr didStr
    match alistFind addr st.connectedDevices with
    | none => ⟨false, st, [], []⟩
    | some _ =>
      match o.svcFetch with
      | .threw => ⟨false, st, [], [.getGattServicesForUuid svcUuid]⟩
      | .result ok size =>
        if !ok || size = 0 then
          ⟨false, st, [], [.getGattServicesForUuid svcUuid]⟩
        else
          match o.charFetch with
          | .threw =>
            ⟨false, st, [],
             [.getGattServicesForUuid svcUuid, .getCharacteristicsForUuid chrUuid]⟩
          | .result ok2 chars =>
            match ok2, chars with
            | true, c :: _ =>
              if !c.canNotify then
                ⟨false, st, [],
                 [.getGattServicesForUuid svcUuid, .getCharacteristicsForUuid chrUuid]⟩
              else
                match o.cccdWrite with
                | .threw =>
                  ⟨false, st, [],
                   [.getGattServicesForUuid svcUuid,
                    .getCharacteristicsForUuid chrUuid, .writeCccd true]⟩
                | .status s =>
                  if !s then
                    ⟨false, st, [],
                     [.getGattServicesForUuid svcUuid,
                      .getCharacteristicsForUuid chrUuid, .writeCccd true]⟩
                  else
                    let tok := st.nextToken
                    let key := subKey didStr svcUuid chrUuid
                    ⟨true,
                     { st with
                         attachedCallbacks := st.attachedCallbacks ++ [(key, tok)],
                         notificationTokens :=
                           alistInsert key tok st.notificationTokens,
                         nextToken := tok + 1 },
                     [],
                     [.getGattServicesForUuid svcUuid,
                      .getCharacteristicsForUuid chrUuid, .writeCccd true,
                      .valueChangedAttach]⟩
            | _, _ =>
              ⟨false, st, [],
               [.getGattServicesForUuid svcUuid, .getCharacteristicsForUuid chrUuid]⟩
  | _, _, _, _ => ⟨false, st, [], []⟩

/-- `UnsubscribeFromCharacteristic` (lines 849–913).  The CCCD disable write
happens first (line 899); only if it *completes* (with any status) does the
cleanup at lines 903–907 run — the handler of the stored token is detached and the
map entry erased.  A throw from the write lands in `catch (...)` with the
bookkeeping untouched. -/
def unsubscribeFromCharacteristic (args : ArgsMap) (st : PluginState)
    (o : PlatformOracle) : OpOut Bool :=
  match args.deviceId, args.serviceUuid, args.characteristicUuid with
  | some didStr, some svcUuid, some chrUuid =>
    let addr := parseHexAddr didStr
    match alistFind addr st.connectedDevices with
    | none => ⟨false, st, [], []⟩
    | some _ =>
      match o.svcFetch with
      | .threw => ⟨false, st, [], [.getGattServicesForUuid svcUuid]⟩
      | .result ok size =>
        if !ok || size = 0 then
          ⟨false, st, [], [.getGattServicesForUuid svcUuid]⟩
        else
          match o.charFetch with
          | .threw =>
            ⟨false, st, [],
             [.getGattServicesForUuid svcUuid, .getCharacteristicsForUuid chrUuid]⟩
          | .result ok2 chars =>
            if !ok2 || chars.isEmpty then
              ⟨false, st, [],
               [.getGattServicesForUuid svcUuid, .getCharacteristicsForUuid chrUuid]⟩
            else
              match o.cccdWrite with
              | .threw =>
                ⟨false, st, [],
                 [.getGattServicesForUuid svcUuid,
                  .getCharacteristicsForUuid chrUuid, .writeCccd false]⟩
              | .status s =>
                let key := subKey didStr svcUuid chrUuid
                match alistFind key st.notificationTokens with
                | some tok =>
                  ⟨s,
                   { st with
                       attachedCallbacks :=
                         removeFirst (key, tok) st.attachedCallbacks,
                       notificationTokens :=
                         alistErase key st.notificationTokens },
                   [],
                   [.getGattServicesForUuid svcUuid,
                    .getCharacteristicsForUuid chrUuid, .writeCccd false,
                    .valueChangedDetach tok]⟩
                | none =>
                  ⟨s, st, [],
                   [.getGattServicesForUuid svcUuid,
                    .getCharacteristicsForUuid chrUuid, .writeCccd false]⟩
  | _, _, _ => ⟨false, st, [], []⟩

/-- The state effect shared by the destructor (lines 101–114) and the
`dispose` branch of `HandleMethodCall` (lines 277–291): stop the watcher
(errors swallowed) and clear `connected_devices_`; `notification_tokens_` is
not touched and no `ValueChanged` handler is detached. -/
def teardownCleanup (st : PluginState) : PluginState :=
  { st with watcherStarted := false, connectedDevices := [] }

/-! ### Method-call dispatch (cpp lines 117–295)

`HandleMethodCall` decodes the arguments and forwards to the operation whose
`Completed` handler delivers the result.  The coroutines above catch all of
their own exceptions, so their `Completed` status is `Completed` and the
handler answers with `Success`.  The one uncaught throw site is
`std::get<flutter::EncodableMap>(*arguments)`, executed outside any `try`
when `arguments` is non-null: a non-map payload raises
`std::bad_variant_access` straight out of `HandleMethodCall`, modelled as
`Except.error ()`. -/

/-- The `arguments` value of a method call: either an `EncodableMap` or some
other `EncodableValue` alternative. -/
inductive ArgValue where
  | map (m : ArgsMap)
  | nonMap
deriving DecidableEq, Repr

/-- Values the dispatcher passes to `result->Success`. -/
inductive ResultValue where
  | boolVal (b : Bool)
  | listVal (l : List ServiceEntry)
  | bytesVal (v : Option (List Nat))
deriving DecidableEq, Repr

/-- What `HandleMethodCall` answers on the method channel. -/
inductive MethodResult where
  | success (v : ResultValue)
  | channelError (code : String)
  | notImplemented
deriving DecidableEq, Repr

structure Dispatch where
  result : MethodResult
  state : PluginState
  events : List Event
deriving DecidableEq, Repr

/-- The null-check plus `std::get<flutter::EncodableMap>` prologue shared by
every argument-taking branch: missing arguments answer an `argument_error`;
a non-map payload throws uncaught. -/
def requireMap (args : Option ArgValue) (st : PluginState)
    (k : ArgsMap → Dispatch) : Except Unit Dispatch :=
  match args with
  | none => .ok ⟨.channelError "argument_error", st, []⟩
  | some (.map m) => .ok (k m)
  | some .nonMap => .error ()

def ofBool (r : OpOut Bool) : Dispatch :=
  ⟨.success (.boolVal r.result), r.state, r.events⟩

/-- `HandleMethodCall`.  `Except.error ()` is an exception escaping to the
host; `.ok` is a result (success, channel error, or not-implemented)
delivered through the method channel. -/
def handleMethodCall (method : String) (args : Option ArgValue)
    (st : PluginState) (o : PlatformOracle) : Except Unit Dispatch :=
  if method = "initialize" then
    .ok (ofBool (initBluetooth st o))
  else if method = "isBluetoothAvailable" then
    .ok (ofBool (isBluetoothAvailable st o))
  else if method = "startScan" then
    requireMap args st (fun m => ofBool (startScan m st))
  else if method = "stopScan" then
    .ok (ofBool (stopScan st))
  else if method = "connectToDevice" then
    requireMap args st (fun m => ofBool (connectToDevice m st o))
  else if method = "disconnectDevice" then
    requireMap args st (fun m => ofBool (disconnectDevice m st))
  else if method = "discoverServices" then
    requireMap args st (fun m =>
      let r := discoverServices m st o
      ⟨.success (.listVal r.result), r.state, r.events⟩)
  else if method = "writeCharacteristic" then
    requireMap args st (fun m => ofBool (writeCharacteristic m st o))
  else if method = "readCharacteristic" then
    requireMap args st (fun m =>
      let r := readCharacteristic m st o
      ⟨.success (.bytesVal r.result), r.state, r.events⟩)
  else if method = "subscribeToCharacteristic" then
    requireMap args st (fun m => ofBool (subscribeToCharacteristic m st o))
  else if method = "unsubscribeFromCharacteristic" then
    requireMap args st (fun m => ofBool (unsubscribeFromCharacteristic m st o))
  else if method = "startAdvertising" then
    .ok ⟨.success (.boolVal false), st, []⟩
  else if method = "stopAdvertising" then
    .ok ⟨.success (.boolVal true), st, []⟩
  else if method = "dispose" then
    .ok ⟨.success (.boolVal true), teardownCleanup st, []⟩
  else
    .ok ⟨.notImplemented, st, []⟩

/-! ### Derived definitions used by the verification -/

def exceptOk {ε α : Type} : Except ε α → Bool
  | .ok _ => true
  | .error _ => false

/-- A platform stack whose every asynchronous call throws (all oracle fields
default to the throwing outcome). -/
def throwingOracle : PlatformOracle := {}

/-- Number of live platform `ValueChanged` registrations for a key. -/
def attachedCount (key : String) (st : PluginState) : Nat :=
  (st.attachedCallbacks.filter (fun p => p.1 == key)).length

/-- The guard cascade of `ReadCharacteristic` (lines 666–731): `true` exactly
when one of its failure paths is taken — a required argument missing, the
device absent from the registry, service or characteristic resolution
unsuccessful or empty, a thrown platform call, or a non-success read
status. -/
def readFailCond (args : ArgsMap) (st : PluginState) (o : PlatformOracle) : Bool :=
  match args.deviceId, args.serviceUuid, args.characteristicUuid with
  | some didStr, some _, some _ =>
    match alistFind (parseHexAddr didStr) st.connectedDevices with
    | none => true
    | some _ =>
      match o.svcFetch with
      | .threw => true
      | .result ok size =>
        if !ok || size = 0 then true
        else
          match o.charFetch with
          | .threw => true
          | .result ok2 chars =>
            if !ok2 || chars.isEmpty then true
            else
              match o.readResp with
              | .threw => true
              | .result rok _ => !rok
  | _, _, _ => true

/-- The byte payload carried by a completed `ReadValueAsync` response. -/
def readPayload (o : PlatformOracle) : List Nat :=
  match o.readResp with
  | .result _ v => v
  | .threw => []

/-- The service map `DiscoverServices` produces for one enumerated service
when no characteristic enumeration throws: a non-success characteristic
status leaves the characteristic list empty. -/
def svcEntryOf (s : SvcEnum) : ServiceEntry :=
  ⟨s.uuid,
   match s.chars with
   | .result true cs => cs.map charEntry
   | _ => []⟩

/-! ### Concrete fixtures (one family per claim) -/

def c1Args : ArgsMap :=
  { deviceId := some "11", serviceUuid := some "180f",
    characteristicUuid := some "2a19", notificationChannel := some "notif" }

def c1Key : String := subKey "11" "180f" "2a19"

def c1State : PluginState :=
  { watcherExists := true, connectedDevices := [(17, ⟨1⟩)] }

def c1Oracle : PlatformOracle :=
  { fromBluetoothAddress := .dev ⟨1⟩, svcFetch := .result true 1,
    charFetch := .result true [⟨"2a19", true, false, true⟩],
    cccdWrite := .status true }

def c1After1 : OpOut Bool := subscribeToCharacteristic c1Args c1State c1Oracle

def c1After2 : OpOut Bool :=
  subscribeToCharacteristic c1Args c1After1.state c1Oracle

def c3Args : ArgsMap :=
  { deviceId := some "11", serviceUuid := some "180f",
    characteristicUuid := some "2a19" }

def c3Key : String := subKey "11" "180f" "2a19"

def c3State : PluginState :=
  { connectedDevices := [(17, ⟨1⟩)], notificationTokens := [(c3Key, 0)],
    attachedCallbacks := [(c3Key, 0)], nextToken := 1 }

/-- Resolution succeeds but the CCCD disable write throws. -/
def c3ThrowOracle : PlatformOracle :=
  { svcFetch := .result true 1,
    charFetch := .result true [⟨"2a19", false, false, true⟩],
    cccdWrite := .threw }

/-- Resolution succeeds and the CCCD disable write completes with a
non-success status. -/
def c3FailStatusOracle : PlatformOracle :=
  { svcFetch := .result true 1,
    charFetch := .result true [⟨"2a19", false, false, true⟩],
    cccdWrite := .status false }

def c4Args : ArgsMap := { deviceId := some "11" }

def c4Key : String := subKey "11" "180f" "2a19"

def c4State : PluginState :=
  { watcherExists := true, watcherStarted := true,
    connectedDevices := [(17, ⟨1⟩)], notificationTokens := [(c4Key, 0)],
    attachedCallbacks := [(c4Key, 0)], nextToken := 1,
    connectionSinkAttached := true }

def c6State : PluginState := { watcherExists := true }

def c6Args : ArgsMap :=
  { deviceId := some "2a", serviceUuid := some "180f",
    characteristicUuid := some "2a19", data := some [1, 2, 3],
    notificationChannel := some "notif" }

def c7Args : ArgsMap :=
  { deviceId := some "11", serviceUuid := some "180f",
    characteristicUuid := some "2a19" }

def c7State : PluginState := { connectedDevices := [(17, ⟨1⟩)] }

/-- A successful read whose payload is the legitimate zero-length byte
sequence. -/
def c7EmptyReadOracle : PlatformOracle :=
  { svcFetch := .result true 1,
    charFetch := .result true [⟨"2a19", true, false, false⟩],
    readResp := .result true [] }

/-- A read whose final platform status is non-success. -/
def c7FailReadOracle : PlatformOracle :=
  { svcFetch := .result true 1,
    charFetch := .result true [⟨"2a19", true, false, false⟩],
    readResp := .result false [] }

def c8Args : ArgsMap := { deviceId := some "11" }

def c8State : PluginState := { connectedDevices := [(17, ⟨1⟩)] }

/-- Two services; characteristic enumeration fails (non-success status) for
the first and succeeds for the second. -/
def c8Services : List SvcEnum :=
  [⟨"180a", .result false [⟨"2a29", true, false, false⟩]⟩,
   ⟨"180f", .result true [⟨"2a19", true, false, true⟩]⟩]

def c8Oracle : PlatformOracle := { discoverResp := .result true c8Services }

def c9Args : ArgsMap := { deviceId := some "2a" }

def c9Oracle : PlatformOracle := { fromBluetoothAddress := .dev ⟨7⟩ }

def c10Args : ArgsMap := { deviceId := some "zz" }

def c10State : PluginState :=
  { connectedDevices := [(0, ⟨3⟩)], connectionSinkAttached := true }

/-! ### Helper lemmas -/

@[simp] theorem alistFind_nil {α β : Type} [DecidableEq α] (k : α) :
    alistFind (β := β) k [] = none := rfl

theorem alistFind_insert_self {α β : Type} [DecidableEq α] (k : α) (v : β)
    (l : List (α × β)) : alistFind k (alistInsert k v l) = some v := by
  induction l with
  | nil => simp [alistInsert, alistFind]
  | cons p rest ih =>
    by_cases h : p.1 = k
    · simp [alistInsert, alistFind, h]
    · simp only [alistInsert, alistFind]
      rw [if_neg h, alistFind, if_neg h]
      exact ih

theorem alistFind_erase_self {α β : Type} [DecidableEq α] (k : α)
    (l : List (α × β)) : alistFind k (alistErase k l) = none := by
  induction l with
  | nil => simp [alistErase]
  | cons p rest ih =>
    by_cases h : p.1 = k
    · simpa [alistErase, h] using ih
    · simp only [alistErase]
      rw [if_neg h, alistFind, if_neg h]
      exact ih

theorem exceptOk_ite {ε α : Type} (c : Prop) [Decidable c] (a b : Except ε α)
    (ha : exceptOk a = true) (hb : exceptOk b = true) :
    exceptOk (if c then a else b) = true := by
  by_cases h : c <;> simp [h, ha, hb]

theorem parseHexAddr_of_fails (s : String) (h : hexParseFails s = true) :
    parseHexAddr s = 0 := by
  unfold parseHexAddr
  unfold hexParseFails at h
  cases hs : hexScan s with
  | mk neg digits =>
    cases digits with
    | none => rfl
    | some v => rw [hs] at h; simp [Option.isNone] at h

/-! ### Claim C9 -/

/-- Claim C9: for every valid device address, a successful `connectToDevice`
followed immediately by a registry lookup returns the handle stored for that
address, and `disconnectDevice` followed by a lookup returns absent. -/
theorem connect_then_lookup_disconnect_then_absent
    (args : ArgsMap) (st st2 : PluginState) (o : PlatformOracle)
    (didStr : String) (d : Device)
    (hdid : args.deviceId = some didStr)
    (hdev : o.fromBluetoothAddress = .dev d) :
    (connectToDevice args st o).result = true ∧
    alistFind (parseHexAddr didStr)
      (connectToDevice args st o).state.connectedDevices = some d ∧
    (disconnectDevice args st2).result = true ∧
    alistFind (parseHexAddr didStr)
      (disconnectDevice args st2).state.connectedDevices = none := by
  unfold connectToDevice disconnectDevice
  rw [hdid, hdev]
  simp [alistFind_insert_self, alistFind_erase_self]

/-- Closed witness for C9 at address string `"2a"` and a concrete handle. -/
theorem connect_then_lookup_disconnect_then_absent_witness :
    (connectToDevice c9Args {} c9Oracle).result = true ∧
    alistFind (parseHexAddr "2a")
      (connectToDevice c9Args {} c9Oracle).state.connectedDevices = some ⟨7⟩ ∧
    (disconnectDevice c9Args {}).result = true ∧
    alistFind (parseHexAddr "2a")
      (disconnectDevice c9Args {}).state.connectedDevices = none :=
  connect_then_lookup_disconnect_then_absent c9Args {} {} c9Oracle "2a" ⟨7⟩
    rfl rfl

/-! ### Claim C6 -/

/-- Claim C6: every read, write, discoverServices, subscribe or unsubscribe
command whose parsed device address has no entry in the connected-devices
registry fails immediately (`false`, null, or the empty list) and issues no
platform call at all — in particular no service resolution. -/
theorem absent_device_fails_without_platform_calls
    (args : ArgsMap) (st : PluginState) (o : PlatformOracle) (didStr : String)
    (hdid : args.deviceId = some didStr)
    (habs : alistFind (parseHexAddr didStr) st.connectedDevices = none) :
    ((writeCharacteristic args st o).result = false ∧
     (writeCharacteristic args st o).calls = []) ∧
    ((readCharacteristic args st o).result = none ∧
     (readCharacteristic args st o).calls = []) ∧
    ((discoverServices args st o).result = [] ∧
     (discoverServices args st o).calls = []) ∧
    ((subscribeToCharacteristic args st o).result = false ∧
     (subscribeToCharacteristic args st o).calls = []) ∧
    ((unsubscribeFromCharacteristic args st o).result = false ∧
     (unsubscribeFromCharacteristic args st o).calls = []) := by
  obtain ⟨did, svc, chr, dat, wr, tm, nc⟩ := args
  simp only at hdid
  subst hdid
  cases svc <;> cases chr <;> cases dat <;> cases nc <;>
    simp [writeCharacteristic, readCharacteristic, discoverServices,
          subscribeToCharacteristic, unsubscribeFromCharacteristic, habs]

/-- Closed witness for C6: address string `"2a"` parses to `42`, absent from
an empty registry. -/
theorem absent_device_fails_without_platform_calls_witness :
    ((writeCharacteristic c6Args c6State {}).result = false ∧
     (writeCharacteristic c6Args c6State {}).calls = []) ∧
    ((readCharacteristic c6Args c6State {}).result = none ∧
     (readCharacteristic c6Args c6State {}).calls = []) ∧
    ((discoverServices c6Args c6State {}).result = [] ∧
     (discoverServices c6Args c6State {}).calls = []) ∧
    ((subscribeToCharacteristic c6Args c6State {}).result = false ∧
     (subscribeToCharacteristic c6Args c6State {}).calls = []) ∧
    ((unsubscribeFromCharacteristic c6Args c6State {}).result = false ∧
     (unsubscribeFromCharacteristic c6Args c6State {}).calls = []) :=
  absent_device_fails_without_platform_calls c6Args c6State {} "2a" rfl rfl

/-! ### Claim C10 -/

/-- Claim C10: a `deviceId` string that is not a valid hexadecimal numeral
does not fail the operation; the extraction stores address `0`, so the
command proceeds against address `0`: `disconnectDevice` on such a string
still returns `true`, erases registry key `0`, and (with a listener
attached) still emits the disconnected connection-state event; any two
malformed strings parse to the same address and hence alias the same
registry entry. -/
theorem malformed_device_id_aliases_address_zero
    (s1 s2 : String) (args : ArgsMap) (st : PluginState)
    (h1 : hexParseFails s1 = true) (h2 : hexParseFails s2 = true)
    (hdid : args.deviceId = some s1) :
    parseHexAddr s1 = 0 ∧
    parseHexAddr s1 = parseHexAddr s2 ∧
    (disconnectDevice args st).result = true ∧
    (disconnectDevice args st).state.connectedDevices
      = alistErase 0 st.connectedDevices ∧
    (st.connectionSinkAttached = true →
      (disconnectDevice args st).events
        = [Event.connectionState s1 "disconnected" false]) := by
  have p1 := parseHexAddr_of_fails s1 h1
  have p2 := parseHexAddr_of_fails s2 h2
  unfold disconnectDevice
  rw [hdid]
  refine ⟨p1, by rw [p1, p2], by simp, by simp [p1], ?_⟩
  intro hs
  simp [hs]

/-- Closed witness for C10 at the malformed strings `"zz"` and `"hello!"`. -/
theorem malformed_device_id_aliases_address_zero_witness :
    parseHexAddr "zz" = 0 ∧
    parseHexAddr "zz" = parseHexAddr "hello!" ∧
    (disconnectDevice c10Args c10State).result = true ∧
    (disconnectDevice c10Args c10State).state.connectedDevices
      = alistErase 0 c10State.connectedDevices ∧
    (c10State.connectionSinkAttached = true →
      (disconnectDevice c10Args c10State).events
        = [Event.connectionState "zz" "disconnected" false]) :=
  malformed_device_id_aliases_address_zero "zz" "hello!" c10Args c10State
    (by decide) (by decide) rfl

/-! ### Claim C2 -/

/-- Claim C2 (refuted — the code omits the scheduled stop): `startScan`
reads `timeoutMs` (default 10000) but the block guarded by `timeout_ms > 0`
is empty, so the outcome is identical for every timeout value, the watcher
is simply left started, the only event emitted is `scanning=true`, and no
`scanning=false` event is ever produced by the call; no stop is scheduled
anywhere in the state, so scanning is never automatically stopped. -/
theorem start_scan_timeout_is_inert (t : Option Int) (args : ArgsMap)
    (st : PluginState) :
    startScan { args with timeoutMs := t } st = startScan args st ∧
    (startScan args st).result = st.watcherExists ∧
    (startScan args st).state.watcherStarted
      = (st.watcherExists || st.watcherStarted) ∧
    (startScan args st).events
      = (if st.watcherExists then [Event.scanStateChanged true] else []) ∧
    ∀ e ∈ (startScan args st).events, e ≠ Event.scanStateChanged false := by
  unfold startScan
  cases hw : st.watcherExists <;> simp [hw]

/-! ### Claim C4 -/

/-- Counterexample to claim C4: a state holding one subscription record with
its live callback; `disconnectDevice` of its device returns `true` and clears
the registry entry, yet the record stays in the notification table and the
callback stays attached; the destructor/dispose cleanup also leaves both in
place. -/
theorem disconnect_and_teardown_leave_record :
    (disconnectDevice c4Args c4State).result = true ∧
    (disconnectDevice c4Args c4State).state.connectedDevices = [] ∧
    (disconnectDevice c4Args c4State).state.notificationTokens
      = [(c4Key, 0)] ∧
    (disconnectDevice c4Args c4State).state.attachedCallbacks
      = [(c4Key, 0)] ∧
    (teardownCleanup c4State).notificationTokens = [(c4Key, 0)] ∧
    (teardownCleanup c4State).attachedCallbacks = [(c4Key, 0)] := by decide

/-- Claim C4 as amended: subscription records are destroyed only by explicit
unsubscribe; `disconnectDevice`, the destructor cleanup and the `dispose`
method leave the notification table and every attached value-changed
callback untouched. -/
theorem records_survive_disconnect_and_disposal (args : ArgsMap)
    (st : PluginState) (o : PlatformOracle) (v : Option ArgValue) :
    (disconnectDevice args st).state.notificationTokens
      = st.notificationTokens ∧
    (disconnectDevice args st).state.attachedCallbacks
      = st.attachedCallbacks ∧
    (teardownCleanup st).notificationTokens = st.notificationTokens ∧
    (teardownCleanup st).attachedCallbacks = st.attachedCallbacks ∧
    handleMethodCall "dispose" v st o
      = .ok ⟨.success (.boolVal true), teardownCleanup st, []⟩ := by
  refine ⟨?_, ?_, rfl, rfl, by rfl⟩ <;>
    (obtain ⟨did, _, _, _, _, _, _⟩ := args; cases did <;> rfl)

/-! ### Claim C8 -/

theorem discoverLoop_of_no_threw (svcs : List SvcEnum)
    (h : ∀ s ∈ svcs, s.chars ≠ .threw) :
    (discoverLoop svcs).1 = some (svcs.map svcEntryOf) := by
  induction svcs with
  | nil => rfl
  | cons s rest ih =>
    have hs : s.chars ≠ .threw := h s (by simp)
    have hrest : ∀ t ∈ rest, t.chars ≠ .threw := fun t ht => h t (by simp [ht])
    cases hc : s.chars with
    | threw => exact absurd hc hs
    | result ok cs =>
      simp only [discoverLoop, hc, ih hrest, Option.map_some, List.map_cons]
      cases ok <;> simp [svcEntryOf, hc]

/-- Claim C8: when service enumeration succeeds and no characteristic
enumeration throws, a characteristic-level failure (non-success status) for
one service does not abort its siblings: the full service list is returned,
the failed service appearing with an empty characteristic list. -/
theorem discover_keeps_siblings_on_char_failure
    (args : ArgsMap) (st : PluginState) (o : PlatformOracle)
    (didStr : String) (svcs : List SvcEnum) (d : Device)
    (hdid : args.deviceId = some didStr)
    (hdev : alistFind (parseHexAddr didStr) st.connectedDevices = some d)
    (hresp : o.discoverResp = .result true svcs)
    (hnothrow : ∀ s ∈ svcs, s.chars ≠ .threw) :
    (discoverServices args st o).result = svcs.map svcEntryOf ∧
    (discoverServices args st o).result.length = svcs.length ∧
    ∀ s ∈ svcs, ∀ cs, s.chars = .result false cs →
      svcEntryOf s = ⟨s.uuid, []⟩ := by
  have hl := discoverLoop_of_no_threw svcs hnothrow
  unfold discoverServices
  rw [hdid]
  rcases hd : discoverLoop svcs with ⟨r, calls⟩
  rw [hd] at hl
  simp only at hl
  subst hl
  refine ⟨by simp [hdev, hresp, hd], by simp [hdev, hresp, hd], ?_⟩
  intro s _ cs hcs
  simp [svcEntryOf, hcs]

/-- Closed witness for C8: two services, characteristic enumeration failing
for the first and succeeding for the second; both are returned, the first
with no characteristics. -/
theorem discover_keeps_siblings_on_char_failure_witness :
    (discoverServices c8Args c8State c8Oracle).result
      = c8Services.map svcEntryOf ∧
    (discoverServices c8Args c8State c8Oracle).result.length
      = c8Services.length ∧
    ∀ s ∈ c8Services, ∀ cs, s.chars = .result false cs →
      svcEntryOf s = ⟨s.uuid, []⟩ :=
  discover_keeps_siblings_on_char_failure c8Args c8State c8Oracle "11"
    c8Services ⟨1⟩ rfl (by decide) rfl (by decide)

/-! ### Claim C1 -/

/-- Counterexample to claim C1: subscribing twice to the same
(device, service, characteristic) key succeeds both times, yet after the
second subscribe two platform value-changed callbacks are live for the key —
the first was never detached — and the token map keeps only the newer token,
so the older callback can no longer be released. -/
theorem subscribe_twice_keeps_both_callbacks :
    c1After1.result = true ∧ c1After2.result = true ∧
    attachedCount c1Key c1After2.state = 2 ∧
    c1After2.state.notificationTokens = [(c1Key, 1)] := by decide

/-- Claim C1 as amended: a second successful subscribe on an already
subscribed key does not release the prior registration: it installs one more
platform callback (the live-callback count for the key strictly grows) and
overwrites the stored token with the fresh one. -/
theorem subscribe_overwrites_token_without_detach
    (args : ArgsMap) (st : PluginState) (o : PlatformOracle)
    (didStr svcU chrU chan : String) (c : GattChar) (cs : List GattChar)
    (n : Nat) (d : Device)
    (h1 : args.deviceId = some didStr) (h2 : args.serviceUuid = some svcU)
    (h3 : args.characteristicUuid = some chrU)
    (h4 : args.notificationChannel = some chan)
    (hdev : alistFind (parseHexAddr didStr) st.connectedDevices = some d)
    (hsvc : o.svcFetch = .result true (n + 1))
    (hchr : o.charFetch = .result true (c :: cs))
    (hnotify : c.canNotify = true)
    (hcccd : o.cccdWrite = .status true) :
    (subscribeToCharacteristic args st o).result = true ∧
    alistFind (subKey didStr svcU chrU)
        (subscribeToCharacteristic args st o).state.notificationTokens
      = some st.nextToken ∧
    attachedCount (subKey didStr svcU chrU)
        (subscribeToCharacteristic args st o).state
      = attachedCount (subKey didStr svcU chrU) st + 1 := by
  unfold subscribeToCharacteristic
  rw [h1, h2, h3, h4]
  simp [hdev, hsvc, hchr, hnotify, hcccd, alistFind_insert_self,
        attachedCount, List.filter_append]

/-- Closed witness for the amended C1 at the concrete fixtures: the second
subscribe returns `true`, stores the fresh token `1`, and raises the
live-callback count for the key from 1 to 2. -/
theorem subscribe_overwrites_token_without_detach_witness :
    (subscribeToCharacteristic c1Args c1After1.state c1Oracle).result
      = true ∧
    alistFind (subKey "11" "180f" "2a19")
        (subscribeToCharacteristic c1Args
          c1After1.state c1Oracle).state.notificationTokens
      = some c1After1.state.nextToken ∧
    attachedCount (subKey "11" "180f" "2a19")
        (subscribeToCharacteristic c1Args c1After1.state c1Oracle).state
      = attachedCount (subKey "11" "180f" "2a19") c1After1.state + 1 :=
  subscribe_overwrites_token_without_detach c1Args c1After1.state c1Oracle
    "11" "180f" "2a19" "notif" ⟨"2a19", true, false, true⟩ [] 0 ⟨1⟩
    rfl rfl rfl rfl (by decide) rfl rfl rfl rfl

/-! ### Claim C3 -/

/-- Counterexample to claim C3: with a stored record for the key and the
platform disable-notifications write throwing, unsubscribe returns `false`
and performs no local cleanup — the record stays in the notification table
and the callback registration dangles. -/
theorem unsubscribe_throwing_write_leaks_callback :
    (unsubscribeFromCharacteristic c3Args c3State c3ThrowOracle).result
      = false ∧
    (unsubscribeFromCharacteristic c3Args c3State
        c3ThrowOracle).state.notificationTokens = [(c3Key, 0)] ∧
    (unsubscribeFromCharacteristic c3Args c3State
        c3ThrowOracle).state.attachedCallbacks = [(c3Key, 0)] := by decide

/-- Claim C3 as amended: when the disable-notifications write *completes*
(with success or with a non-success status), unsubscribe unconditionally
detaches the stored callback and removes the record, returning the status of
the write; but when the write throws (or when device/service/characteristic
resolution fails beforehand) the bookkeeping is left in place. -/
theorem unsubscribe_completed_write_cleans
    (args : ArgsMap) (st : PluginState) (o : PlatformOracle)
    (didStr svcU chrU : String) (c : GattChar) (cs : List GattChar)
    (n t : Nat) (s : Bool) (d : Device)
    (h1 : args.deviceId = some didStr) (h2 : args.serviceUuid = some svcU)
    (h3 : args.characteristicUuid = some chrU)
    (hdev : alistFind (parseHexAddr didStr) st.connectedDevices = some d)
    (hsvc : o.svcFetch = .result true (n + 1))
    (hchr : o.charFetch = .result true (c :: cs))
    (hcccd : o.cccdWrite = .status s)
    (htok : alistFind (subKey didStr svcU chrU) st.notificationTokens
      = some t) :
    (unsubscribeFromCharacteristic args st o).result = s ∧
    alistFind (subKey didStr svcU chrU)
        (unsubscribeFromCharacteristic args st o).state.notificationTokens
      = none ∧
    (unsubscribeFromCharacteristic args st o).state.attachedCallbacks
      = removeFirst (subKey didStr svcU chrU, t) st.attachedCallbacks := by
  unfold unsubscribeFromCharacteristic
  rw [h1, h2, h3]
  simp [hdev, hsvc, hchr, hcccd, htok, alistFind_erase_self]

/-- Closed witness for the amended C3: the disable write completes with a
non-success status, unsubscribe returns `false`, yet the record is removed
and the callback detached. -/
theorem unsubscribe_completed_write_cleans_witness :
    (unsubscribeFromCharacteristic c3Args c3State c3FailStatusOracle).result
      = false ∧
    alistFind (subKey "11" "180f" "2a19")
        (unsubscribeFromCharacteristic c3Args c3State
          c3FailStatusOracle).state.notificationTokens = none ∧
    (unsubscribeFromCharacteristic c3Args c3State
        c3FailStatusOracle).state.attachedCallbacks
      = removeFirst (subKey "11" "180f" "2a19", 0)
          c3State.attachedCallbacks :=
  unsubscribe_completed_write_cleans c3Args c3State c3FailStatusOracle
    "11" "180f" "2a19" ⟨"2a19", false, false, true⟩ [] 0 0 false ⟨1⟩
    rfl rfl rfl (by decide) rfl rfl rfl (by decide)

/-! ### Claim C5 -/

/-- Counterexample to claim C5: a `startScan` call whose `arguments` value is
non-null but not a map makes `std::get<flutter::EncodableMap>` throw outside
every `try` block, and the fault escapes `HandleMethodCall` to the host. -/
theorem non_map_arguments_fault_escapes :
    handleMethodCall "startScan" (some .nonMap) {} {} = .error () := by rfl

/-- Claim C5 as amended: every exception raised inside a BLE operation
coroutine — including a platform stack in which every asynchronous call
throws — is caught at the operation boundary and collapsed to the boolean or
absent failure result, and dispatch with null or map-shaped arguments never
lets a fault escape; the one exception is the argument extraction of the
dispatcher itself, which throws uncaught for any argument-taking command
whose non-null arguments are not a map. -/
theorem faults_caught_inside_operations_only
    (method : String) (m : ArgsMap) (st : PluginState) (o : PlatformOracle) :
    exceptOk (handleMethodCall method none st o) = true ∧
    exceptOk (handleMethodCall method (some (.map m)) st o) = true ∧
    handleMethodCall "startScan" (some .nonMap) st o = .error () ∧
    (connectToDevice m st throwingOracle).result = false ∧
    (writeCharacteristic m st throwingOracle).result = false ∧
    (readCharacteristic m st throwingOracle).result = none ∧
    (discoverServices m st throwingOracle).result = [] ∧
    (subscribeToCharacteristic m st throwingOracle).result = false ∧
    (unsubscribeFromCharacteristic m st throwingOracle).result = false := by
  refine ⟨?_, ?_, by rfl, ?_, ?_, ?_, ?_, ?_, ?_⟩
  · unfold handleMethodCall
    repeat (first | apply exceptOk_ite | rfl)
  · unfold handleMethodCall
    repeat (first | apply exceptOk_ite | rfl)
  · obtain ⟨did, svc, chr, dat, wr, tm, nc⟩ := m
    cases did <;> rfl
  · obtain ⟨did, svc, chr, dat, wr, tm, nc⟩ := m
    cases did <;> cases svc <;> cases chr <;> cases dat <;> try rfl
    rename_i didStr svcU chrU bytes
    cases hfind : alistFind (parseHexAddr didStr) st.connectedDevices <;>
      simp [writeCharacteristic, hfind, throwingOracle]
  · obtain ⟨did, svc, chr, dat, wr, tm, nc⟩ := m
    cases did <;> cases svc <;> cases chr <;> try rfl
    rename_i didStr svcU chrU
    cases hfind : alistFind (parseHexAddr didStr) st.connectedDevices <;>
      simp [readCharacteristic, hfind, throwingOracle]
  · obtain ⟨did, svc, chr, dat, wr, tm, nc⟩ := m
    cases did <;> try rfl
    rename_i didStr
    cases hfind : alistFind (parseHexAddr didStr) st.connectedDevices <;>
      simp [discoverServices, hfind, throwingOracle]
  · obtain ⟨did, svc, chr, dat, wr, tm, nc⟩ := m
    cases did <;> cases svc <;> cases chr <;> cases nc <;> try rfl
    rename_i didStr svcU chrU chan
    cases hfind : alistFind (parseHexAddr didStr) st.connectedDevices <;>
      simp [subscribeToCharacteristic, hfind, throwingOracle]
  · obtain ⟨did, svc, chr, dat, wr, tm, nc⟩ := m
    cases did <;> cases svc <;> cases chr <;> try rfl
    rename_i didStr svcU chrU
    cases hfind : alistFind (parseHexAddr didStr) st.connectedDevices <;>
      simp [unsubscribeFromCharacteristic, hfind, throwingOracle]

/-! ### Claim C7 -/

/-- Claim C7: the result of `readCharacteristic` is the null value exactly on
the failure paths (missing argument, device missing, service or
characteristic not found, non-success platform status, exception) and the
byte payload wrapped in `some` on success; since `some v ≠ none` for every
`v`, a failure is distinguishable from a successful zero-length read — at
the concrete fixtures a failed read yields `none` while a successful
zero-length read yields `some []`. -/
theorem read_failure_distinguishable_from_empty (args : ArgsMap)
    (st : PluginState) (o : PlatformOracle) :
    (readCharacteristic args st o).result =
      (if readFailCond args st o = true then none else some (readPayload o)) ∧
    (∀ v : List Nat, (some v : Option (List Nat)) ≠ none) ∧
    (readCharacteristic c7Args c7State c7EmptyReadOracle).result = some [] ∧
    (readCharacteristic c7Args c7State c7FailReadOracle).result = none := by
  refine ⟨?_, fun v h => Option.noConfusion h, by decide, by decide⟩
  obtain ⟨did, svc, chr, dat, wr, tm, nc⟩ := args
  cases did <;> cases svc <;> cases chr <;> try rfl
  rename_i didStr svcU chrU
  cases hfind : alistFind (parseHexAddr didStr) st.connectedDevices <;>
    cases hsf : o.svcFetch <;>
    simp only [readCharacteristic, readFailCond, readPayload, hfind, hsf] <;>
    try rfl
  rename_i d ok size
  by_cases hc1 : (!ok || decide (size = 0)) = true
  · simp [hc1]
  · simp only [hc1, if_false]
    cases hcf : o.charFetch <;> simp only [hcf] <;> try rfl
    rename_i ok2 chars
    by_cases hc2 : (!ok2 || chars.isEmpty) = true
    · simp [hc2]
    · simp only [hc2, if_false]
      cases hrr : o.readResp <;> simp only [hrr] <;> try rfl
      rename_i rok v
      cases rok <;> simp

end BleSpec
